import Mathlib

/-!
Verification of the nano-banana chat relay core (src/server.ts, src/sessionStore.ts).

The server's session/turn lifecycle is shallowly embedded as pure Lean
functions over an explicit `ServerState`.  External effects are modelled as
follows: the durable session repository (one JSON file per session) and the
in-memory session registry become finite maps `String → Option _`; the
artifact directory becomes an append-only list of (fileName, payload) pairs;
the remote generation capability (`ai.models.generateContentStream`) is an
oracle parameter: the list of chunks it yields before either completing or
raising, matching the lazy `for await` iteration in the handler; timestamps
(`new Date()...`) are threaded as a `now : String` parameter; the external
`mime` library's `getExtension` is modelled by a lookup table with the same
`|| 'png'` default the code applies.  Base64 encoding/decoding of image
buffers is abstracted: an image payload is carried as its base64 string.
-/

namespace NanoBanana

/-- JS `\s` membership for the whitespace handling in `deriveTitle`
(server.ts:33-41) and the `.trim()` at server.ts:120. -/
def jsIsSpace (c : Char) : Bool :=
  c = ' ' || c = '\t' || c = '\n' || c = '\r' || c = '\x0b' || c = '\x0c'

/-- `String.prototype.trim` on the character list. -/
def jsTrimList (l : List Char) : List Char :=
  ((l.dropWhile jsIsSpace).reverse.dropWhile jsIsSpace).reverse

/-- `String.prototype.trim`. -/
def jsTrim (s : String) : String := ⟨jsTrimList s.data⟩

/-- `replace(/\s+/g, ' ')`: collapse each maximal whitespace run to one
space.  The boolean argument records whether the previous character was part
of a whitespace run. -/
def collapseAux : Bool → List Char → List Char
  | _, [] => []
  | prevWs, c :: rest =>
    if jsIsSpace c then
      if prevWs then collapseAux true rest else ' ' :: collapseAux true rest
    else c :: collapseAux false rest

/-- `text.replace(/\s+/g, ' ')` (server.ts:36). -/
def collapseWs (s : String) : String := ⟨collapseAux false s.data⟩

/-- JS `.slice(0, n)` on a string (code-unit = character for the BMP inputs
used here). -/
def jsSlice (s : String) (n : Nat) : String := ⟨s.data.take n⟩

/-- Fallback branches of `deriveTitle` (server.ts:39-40): the "N images"
template, else a timestamp label. -/
def deriveTitleFallback (imageCount : Nat) (now : String) : String :=
  if imageCount > 0 then "图片对话（" ++ toString imageCount ++ "张）"
  else "会话 " ++ now

/-- `deriveTitle(text?, imageCount)` (server.ts:33-41).  `now` stands for
`new Date().toLocaleString()`. -/
def deriveTitle (text : Option String) (imageCount : Nat) (now : String) : String :=
  match text with
  | some s =>
    if s ≠ "" ∧ (jsTrim s).length > 0 then
      let oneLine := jsTrim (collapseWs s)
      if oneLine.length > 30 then jsSlice oneLine 30 ++ "…" else oneLine
    else deriveTitleFallback imageCount now
  | none => deriveTitleFallback imageCount now

/-! ## Data model (server.ts:15-17, sessionStore.ts:4-11) -/

/-- The payload of an `inlineData` part: MIME type plus base64 data. -/
structure InlineData where
  mimeType : String
  data : String
deriving DecidableEq

/-- A message part: `{text}` or `{inlineData}` (the dynamic `any[]` parts of
server.ts, closed to the two shapes the code produces and consumes). -/
inductive Part where
  | text : String → Part
  | inlineData : InlineData → Part
deriving DecidableEq

/-- Message role (server.ts:15). -/
inductive Role where
  | user : Role
  | model : Role
deriving DecidableEq

/-- `ChatMessage` (server.ts:15). -/
structure ChatMessage where
  role : Role
  parts : List Part
deriving DecidableEq

/-- Live `ChatSession` of the in-memory registry (server.ts:16). -/
structure ChatSession where
  id : String
  history : List ChatMessage
  generating : Bool
  turn : Nat
deriving DecidableEq

/-- Durable `ChatSessionFile` (sessionStore.ts:5-11). -/
structure SessionDoc where
  id : String
  title : String
  createdAt : String
  updatedAt : String
  history : List ChatMessage
deriving DecidableEq

/-- An uploaded multipart file as the handler sees it (server.ts:128-141):
its MIME type plus its buffer carried as the base64 string the code derives
from it. -/
structure InFile where
  mimetype : String
  base64 : String
deriving DecidableEq

/-- One chunk of the upstream lazy sequence: the parts of
`chunk?.candidates?.[0]?.content?.parts ?? []` (server.ts:212). -/
structure Chunk where
  parts : List Part
deriving DecidableEq

/-- SSE events written by `sseSend` (server.ts:308-311): status, text delta,
image (mimeType, data), error (message), done. -/
inductive SseEvent where
  | status : String → SseEvent
  | text : String → SseEvent
  | image : String → String → SseEvent
  | error : String → SseEvent
  | done : SseEvent
deriving DecidableEq

/-- The event type alone, for statements about event order irrespective of
payload. -/
inductive EvKind where
  | status : EvKind
  | text : EvKind
  | image : EvKind
  | error : EvKind
  | done : EvKind
deriving DecidableEq

/-- Project an event to its kind. -/
def eventKind : SseEvent → EvKind
  | SseEvent.status _ => EvKind.status
  | SseEvent.text _ => EvKind.text
  | SseEvent.image _ _ => EvKind.image
  | SseEvent.error _ => EvKind.error
  | SseEvent.done => EvKind.done

/-- Finite maps keyed by strings: the in-memory `sessions` `Map` and the
one-file-per-id durable store. -/
def StrMap (α : Type) : Type := String → Option α

/-- `Map.set` / writing the durable file for an id. -/
def mapUpdate {α : Type} (m : StrMap α) (k : String) (v : α) : StrMap α :=
  fun k' => if k' = k then some v else m k'

/-- `Map.delete` / `unlink` with errors swallowed (sessionStore.ts:46-48). -/
def mapErase {α : Type} (m : StrMap α) (k : String) : StrMap α :=
  fun k' => if k' = k then none else m k'

/-- The whole server state: in-memory registry, durable repository, artifact
directory (append-only list of fileName ↦ payload writes). -/
structure ServerState where
  sessions : StrMap ChatSession
  store : StrMap SessionDoc
  artifacts : List (String × String)

/-- The state at process start: empty registry, empty store, no artifacts. -/
def emptyState : ServerState :=
  ⟨fun _ => none, fun _ => none, []⟩

/-! ## Helper functions from the source -/

/-- The external `mime.getExtension`, modelled by a table of the image MIME
types relevant here; anything else is unknown (`null`). -/
def mimeGetExtension (m : String) : Option String :=
  if m = "image/png" then some "png"
  else if m = "image/jpeg" then some "jpg"
  else if m = "image/webp" then some "webp"
  else if m = "image/gif" then some "gif"
  else none

/-- `extFromMime` (server.ts:29-31): `mime.getExtension(mimeType || '') || 'png'`. -/
def extFromMime (m : String) : String :=
  (mimeGetExtension m).getD "png"

/-- The JS `||`-default applied to MIME types: `f.mimetype || 'image/png'`
(server.ts:135, 215). -/
def normMime (m : String) : String :=
  if m = "" then "image/png" else m

/-- Count of model-role messages, used to recover `turn` when warming the
registry from disk (server.ts:72) and in listings (sessionStore.ts:63). -/
def countModel (h : List ChatMessage) : Nat :=
  (h.filter (fun m => m.role == Role.model)).length

/-! ## Session CRUD endpoints -/

/-- `POST /session` (server.ts:107-114): register a fresh live session and
create its durable document. -/
def createSession (st : ServerState) (id : String) (title : String) (now : String) : ServerState :=
  { st with
    sessions := mapUpdate st.sessions id ⟨id, [], false, 0⟩,
    store := mapUpdate st.store id ⟨id, title, now, now, []⟩ }

/-- `GET /session/:id` (server.ts:67-77): load the durable document and warm
the registry (`generating := false`, `turn :=` model-message count); `none`
response models the 404 branch. -/
def loadSession (st : ServerState) (id : String) : ServerState × Option SessionDoc :=
  match st.store id with
  | none => (st, none)
  | some f =>
    ({ st with sessions := mapUpdate st.sessions id ⟨f.id, f.history, false, countModel f.history⟩ },
     some f)

/-- `DELETE /session/:id` (server.ts:99-104 with sessionStore.ts:46-48):
remove durable document (unlink errors swallowed) and registry entry; always
answers `{ok: true}`. -/
def deleteSession (st : ServerState) (id : String) : ServerState × Bool :=
  ({ st with store := mapErase st.store id, sessions := mapErase st.sessions id }, true)

/-- `renameSessionFile` guarded by the `try {} catch {}` of the auto-naming
block (server.ts:152-158 with sessionStore.ts:39-44): load (a missing
document makes the whole block a no-op), set the title, save (refreshing
`updatedAt`). -/
def autoRename (st : ServerState) (id : String) (title : String) (now : String) : ServerState :=
  match st.store id with
  | none => st
  | some f =>
    { st with store := mapUpdate st.store id { f with title := title, updatedAt := now } }

/-! ## acceptMessage — `POST /message` (server.ts:117-167) -/

/-- Response of `POST /message`: `{sessionId, turn}` on success, or one of
the three rejection bodies (400 Invalid sessionId, 409 Generation in
progress, 400 Empty message). -/
inductive MsgResponse where
  | accepted : String → Nat → MsgResponse
  | invalidSession : MsgResponse
  | conflict : MsgResponse
  | emptyMessage : MsgResponse
deriving DecidableEq

/-- The text part pushed first (server.ts:130): present iff the trimmed text
is non-empty (JS truthiness of the trimmed string). -/
def userTextParts (textT : Option String) : List Part :=
  match textT with
  | some t => if t ≠ "" then [Part.text t] else []
  | none => []

/-- The image parts pushed after the text (server.ts:133-142), each with the
`|| 'image/png'` MIME default. -/
def userImageParts (files : List InFile) : List Part :=
  files.map (fun f => Part.inlineData ⟨normMime f.mimetype, f.base64⟩)

/-- The artifact writes made while assembling the user message
(server.ts:138-140): `session-{id}-user-{turn+1}-{idx}.{ext}` per file. -/
def userArtifactWrites (sessionId : String) (turn1 : Nat) (files : List InFile) :
    List (String × String) :=
  files.enum.map (fun p =>
    ("session-" ++ sessionId ++ "-user-" ++ toString turn1 ++ "-" ++ toString p.1
       ++ "." ++ extFromMime (normMime p.2.mimetype),
     p.2.base64))

/-- `POST /message` (server.ts:117-167).  Order of operations as in the
source: trim the text, look up the session in the in-memory registry only
(server.ts:121-122), reject on `generating` (server.ts:123), assemble parts
(writing each image to the artifact store), reject if no part was assembled
(server.ts:144), push the user message, auto-name on the first message
(turn counter 0; a missing durable document is swallowed), and answer with
the reserved turn number `sess.turn + 1`.  The artifact writes always
succeed in this model (a failing write would 500 before the history push;
no claim exercises that path). -/
def acceptMessage (st : ServerState) (sessionId : String) (text : Option String)
    (files : List InFile) (now : String) : ServerState × MsgResponse :=
  let textT := text.map jsTrim
  match st.sessions sessionId with
  | none => (st, MsgResponse.invalidSession)
  | some sess =>
    if sess.generating then (st, MsgResponse.conflict)
    else
      let parts := userTextParts textT ++ userImageParts files
      if parts = [] then (st, MsgResponse.emptyMessage)
      else
        let sess' := { sess with history := sess.history ++ [⟨Role.user, parts⟩] }
        let st1 := { st with
          sessions := mapUpdate st.sessions sessionId sess',
          artifacts := st.artifacts ++ userArtifactWrites sessionId (sess.turn + 1) files }
        let st2 :=
          if sess.turn = 0 then
            autoRename st1 sessionId (deriveTitle textT files.length now) now
          else st1
        (st2, MsgResponse.accepted sessionId (sess.turn + 1))

/-! ## streamTurn — `GET /stream/session/:sessionId` (server.ts:170-254) -/

/-- The loop accumulator of the stream handler: events written so far, the
`assistantParts` buffer, `genIndex`, and the artifact directory. -/
structure GenAcc where
  events : List SseEvent
  assistantParts : List Part
  genIndex : Nat
  artifacts : List (String × String)

/-- Processing of one upstream part (server.ts:213-231).  An inline-image
part with non-empty data: emit the `image` event, then best-effort save the
artifact — `genIndex` is consumed while building the file name, before the
write can fail — and on save success additionally emit the
"Saved generated image" `status` event; the part is buffered regardless.
Non-empty text: emit the `text` delta and buffer it.  Anything else is
skipped. -/
def processPart (sessionId : String) (turn1 : Nat) (artifactOk : Nat → Bool)
    (acc : GenAcc) (p : Part) : GenAcc :=
  match p with
  | Part.inlineData d =>
    if d.data ≠ "" then
      let outMime := normMime d.mimeType
      let fileName := "session-" ++ sessionId ++ "-assistant-" ++ toString turn1
        ++ "-" ++ toString acc.genIndex ++ "." ++ extFromMime outMime
      if artifactOk acc.genIndex then
        { events := acc.events ++ [SseEvent.image outMime d.data,
            SseEvent.status ("Saved generated image: " ++ fileName)],
          assistantParts := acc.assistantParts ++ [Part.inlineData ⟨outMime, d.data⟩],
          genIndex := acc.genIndex + 1,
          artifacts := acc.artifacts ++ [(fileName, d.data)] }
      else
        { events := acc.events ++ [SseEvent.image outMime d.data],
          assistantParts := acc.assistantParts ++ [Part.inlineData ⟨outMime, d.data⟩],
          genIndex := acc.genIndex + 1,
          artifacts := acc.artifacts }
    else acc
  | Part.text t =>
    if t ≠ "" then
      { acc with events := acc.events ++ [SseEvent.text t],
                 assistantParts := acc.assistantParts ++ [Part.text t] }
    else acc

/-- The nested `for await` / `for` loops over chunks and their parts
(server.ts:211-232). -/
def processChunks (sessionId : String) (turn1 : Nat) (artifactOk : Nat → Bool)
    (acc : GenAcc) (chunks : List Chunk) : GenAcc :=
  chunks.foldl (fun a c => c.parts.foldl (processPart sessionId turn1 artifactOk) a) acc

/-- Initial accumulator: the `status` event of server.ts:201 has already
been written, nothing buffered, `genIndex = 0`. -/
def initAcc (artifacts : List (String × String)) : GenAcc :=
  ⟨[SseEvent.status "Generating..."], [], 0, artifacts⟩

/-- `existing?.title || fallback` (server.ts:240). -/
def commitTitle (existing : Option SessionDoc) (now : String) : String :=
  match existing with
  | some f => if f.title = "" then "会话 " ++ now else f.title
  | none => "会话 " ++ now

/-- `existing?.createdAt || new Date().toISOString()` (server.ts:241). -/
def commitCreatedAt (existing : Option SessionDoc) (now : String) : String :=
  match existing with
  | some f => if f.createdAt = "" then now else f.createdAt
  | none => now

/-- Result of the stream handler: the events written to the channel and the
server state when the handler returns. -/
structure StreamResult where
  events : List SseEvent
  state : ServerState

/-- `GET /stream/session/:sessionId` (server.ts:170-254).  The upstream
oracle is `(chunks, upstreamErr)`: the chunks the lazy sequence yields, then
`some msg` if the generation call or the iteration raises (a failure before
any chunk is `([], some msg)`).  `artifactOk i` says whether the best-effort
save of the i-th generated image succeeds.  Branches in source order:
unknown session and already-generating reject with a terminal `error` event
before the lock or the keep-alive timer exist; a missing API key errors out
inside the try (its finally clears the already-false flag); otherwise the
flag is set, the status event emitted, parts relayed and buffered, and on
exhaustion the assistant message is committed, the turn counter incremented, the
document saved (load-or-default title/createdAt, fresh updatedAt) and `done`
emitted, while an upstream error path emits the terminal `error` event and
commits nothing; the finally clears `generating` on every path through the
try. -/
def streamTurn (st : ServerState) (sessionId : String) (apiKey : Option String)
    (chunks : List Chunk) (upstreamErr : Option String)
    (artifactOk : Nat → Bool) (now : String) : StreamResult :=
  match st.sessions sessionId with
  | none => ⟨[SseEvent.error "Invalid sessionId"], st⟩
  | some sess =>
    if sess.generating then ⟨[SseEvent.error "Already generating"], st⟩
    else
      match apiKey with
      | none =>
        ⟨[SseEvent.error "GEMINI_API_KEY is not set"],
         { st with sessions := mapUpdate st.sessions sessionId { sess with generating := false } }⟩
      | some _ =>
        let acc := processChunks sessionId (sess.turn + 1) artifactOk (initAcc st.artifacts) chunks
        match upstreamErr with
        | some msg =>
          ⟨acc.events ++ [SseEvent.error (if msg = "" then "Generation failed" else msg)],
           { st with
             sessions := mapUpdate st.sessions sessionId { sess with generating := false },
             artifacts := acc.artifacts }⟩
        | none =>
          let newHistory := sess.history ++ [⟨Role.model, acc.assistantParts⟩]
          let existing := st.store sessionId
          let doc : SessionDoc :=
            ⟨sessionId, commitTitle existing now, commitCreatedAt existing now, now, newHistory⟩
          ⟨acc.events ++ [SseEvent.done],
           { st with
             sessions := mapUpdate st.sessions sessionId
               { sess with history := newHistory, turn := sess.turn + 1, generating := false },
             store := mapUpdate st.store sessionId doc,
             artifacts := acc.artifacts }⟩

/-! ## Turn sequences -/

/-- Input to one full turn: the user message (text and files), the upstream
chunks of the following stream, the artifact-save oracle and the timestamp. -/
structure TurnInput where
  text : Option String
  files : List InFile
  chunks : List Chunk
  artifactOk : Nat → Bool
  now : String

/-- A message `POST /message` accepts: non-blank trimmed text or at least
one file. -/
def validTurnInput (ti : TurnInput) : Bool :=
  (match ti.text with
   | some s => jsTrim s != ""
   | none => false) || !ti.files.isEmpty

/-- One accepted user message followed by one successfully completed stream
(API key present, upstream completes without raising). -/
def runTurn (st : ServerState) (id : String) (key : String) (ti : TurnInput) : ServerState :=
  let st1 := (acceptMessage st id ti.text ti.files ti.now).1
  (streamTurn st1 id (some key) ti.chunks none ti.artifactOk ti.now).state

/-- A sequence of turns in order. -/
def runTurns (st : ServerState) (id : String) (key : String) : List TurnInput → ServerState
  | [] => st
  | ti :: rest => runTurns (runTurn st id key ti) id key rest

/-- The role pattern of `n` completed turns: user, model, user, model, … -/
def turnRoles : Nat → List Role
  | 0 => []
  | n + 1 => [Role.user, Role.model] ++ turnRoles n

/-- A part the stream loop skips: empty text or inline data with empty
payload (server.ts:214, 226). -/
def unusablePart : Part → Bool
  | Part.text t => t == ""
  | Part.inlineData d => d.data == ""

/-! ## Concrete scenario states -/

/-- Fresh session `s1` right after `{text: "draw a cat"}` was accepted. -/
def scenarioAfterMessage : ServerState :=
  (acceptMessage (createSession emptyState "s1" "t0" "T0") "s1" (some "draw a cat") [] "T1").1

/-- The upstream of the C4 scenario: one text chunk, then one png chunk. -/
def scenarioChunks : List Chunk :=
  [⟨[Part.text "Here's a cat"]⟩, ⟨[Part.inlineData ⟨"image/png", "IMG"⟩]⟩]

/-- The live session of `scenarioAfterMessage`. -/
def scenarioSession : ChatSession :=
  ⟨"s1", [⟨Role.user, [Part.text "draw a cat"]⟩], false, 0⟩

/-- A state whose session `b1` has a generation in flight. -/
def busyState : ServerState :=
  { emptyState with sessions := mapUpdate emptyState.sessions "b1" ⟨"b1", [], true, 0⟩ }

/-- The busy session of `busyState`. -/
def busySession : ChatSession := ⟨"b1", [], true, 0⟩

/-- An upstream that yields one text part and then completes. -/
def oneTextUpstream : List Chunk := [⟨[Part.text "partial answer"]⟩]

/-- A durable document for a session that is not in the registry. -/
def c6Doc : SessionDoc := ⟨"s6", "t", "T0", "T0", []⟩

/-- A state where session `s6` exists durably but is not live. -/
def c6State : ServerState :=
  { emptyState with store := mapUpdate emptyState.store "s6" c6Doc }

/-- A single valid turn: text "hi", no files, upstream yields one text part. -/
def oneTurnInput : TurnInput :=
  ⟨some "hi", [], [⟨[Part.text "ok"]⟩], fun _ => true, "T1"⟩

/-! ## Helper lemmas -/

lemma mapUpdate_self {α : Type} (m : StrMap α) (k : String) (v : α) :
    mapUpdate m k v k = some v := by
  simp [mapUpdate]

lemma mapErase_self {α : Type} (m : StrMap α) (k : String) :
    mapErase m k k = none := by
  simp [mapErase]

lemma mapErase_idem {α : Type} (m : StrMap α) (k : String) :
    mapErase (mapErase m k) k = mapErase m k := by
  funext k'
  by_cases h : k' = k <;> simp [mapErase, h]

lemma autoRename_sessions (st : ServerState) (id title now : String) :
    (autoRename st id title now).sessions = st.sessions := by
  unfold autoRename
  cases st.store id <;> rfl

lemma acceptMessage_notFound (st : ServerState) (id : String) (text : Option String)
    (files : List InFile) (now : String) (h : st.sessions id = none) :
    acceptMessage st id text files now = (st, MsgResponse.invalidSession) := by
  simp [acceptMessage, h]

lemma acceptMessage_conflict (st : ServerState) (id : String) (text : Option String)
    (files : List InFile) (now : String) (sess : ChatSession)
    (h : st.sessions id = some sess) (hg : sess.generating = true) :
    acceptMessage st id text files now = (st, MsgResponse.conflict) := by
  simp [acceptMessage, h, hg]

lemma acceptMessage_empty (st : ServerState) (id : String) (text : Option String)
    (files : List InFile) (now : String) (sess : ChatSession)
    (h : st.sessions id = some sess) (hg : sess.generating = false)
    (hp : userTextParts (text.map jsTrim) ++ userImageParts files = []) :
    acceptMessage st id text files now = (st, MsgResponse.emptyMessage) := by
  simp [acceptMessage, h, hg, hp]

lemma acceptMessage_accepted (st : ServerState) (id : String) (text : Option String)
    (files : List InFile) (now : String) (sess : ChatSession)
    (h : st.sessions id = some sess) (hg : sess.generating = false)
    (hp : userTextParts (text.map jsTrim) ++ userImageParts files ≠ []) :
    (acceptMessage st id text files now).2 = MsgResponse.accepted id (sess.turn + 1)
    ∧ (acceptMessage st id text files now).1.sessions id =
        some { sess with history := sess.history ++
          [⟨Role.user, userTextParts (text.map jsTrim) ++ userImageParts files⟩] } := by
  constructor
  · simp [acceptMessage, h, hg, hp]
  · simp only [acceptMessage, h, hg]
    simp only [if_neg hp, Bool.false_eq_true, if_false]
    by_cases ht : sess.turn = 0
    · simp [ht, autoRename_sessions, mapUpdate_self]
    · simp [ht, mapUpdate_self]

lemma streamTurn_conflict (st : ServerState) (id : String) (apiKey : Option String)
    (chunks : List Chunk) (err : Option String) (aok : Nat → Bool) (now : String)
    (sess : ChatSession) (h : st.sessions id = some sess) (hg : sess.generating = true) :
    streamTurn st id apiKey chunks err aok now = ⟨[SseEvent.error "Already generating"], st⟩ := by
  simp [streamTurn, h, hg]

lemma streamTurn_err (st : ServerState) (id key : String)
    (chunks : List Chunk) (msg : String) (aok : Nat → Bool) (now : String)
    (sess : ChatSession) (h : st.sessions id = some sess) (hg : sess.generating = false) :
    streamTurn st id (some key) chunks (some msg) aok now =
      ⟨(processChunks id (sess.turn + 1) aok (initAcc st.artifacts) chunks).events
         ++ [SseEvent.error (if msg = "" then "Generation failed" else msg)],
       { st with
         sessions := mapUpdate st.sessions id { sess with generating := false },
         artifacts := (processChunks id (sess.turn + 1) aok (initAcc st.artifacts) chunks).artifacts }⟩ := by
  simp [streamTurn, h, hg]

lemma streamTurn_ok (st : ServerState) (id key : String)
    (chunks : List Chunk) (aok : Nat → Bool) (now : String)
    (sess : ChatSession) (h : st.sessions id = some sess) (hg : sess.generating = false) :
    streamTurn st id (some key) chunks none aok now =
      ⟨(processChunks id (sess.turn + 1) aok (initAcc st.artifacts) chunks).events
         ++ [SseEvent.done],
       { st with
         sessions := mapUpdate st.sessions id
           { sess with
             history := sess.history ++
               [⟨Role.model, (processChunks id (sess.turn + 1) aok (initAcc st.artifacts) chunks).assistantParts⟩],
             turn := sess.turn + 1, generating := false },
         store := mapUpdate st.store id
           ⟨id, commitTitle (st.store id) now, commitCreatedAt (st.store id) now, now,
            sess.history ++
              [⟨Role.model, (processChunks id (sess.turn + 1) aok (initAcc st.artifacts) chunks).assistantParts⟩]⟩,
         artifacts := (processChunks id (sess.turn + 1) aok (initAcc st.artifacts) chunks).artifacts }⟩ := by
  simp [streamTurn, h, hg]

lemma processPart_skip (sid : String) (t1 : Nat) (aok : Nat → Bool) (acc : GenAcc)
    (p : Part) (hu : unusablePart p = true) :
    processPart sid t1 aok acc p = acc := by
  cases p with
  | text s =>
    simp only [unusablePart, beq_iff_eq] at hu
    simp [processPart, hu]
  | inlineData d =>
    simp only [unusablePart, beq_iff_eq] at hu
    simp [processPart, hu]

lemma foldl_processPart_skip (sid : String) (t1 : Nat) (aok : Nat → Bool)
    (ps : List Part) (acc : GenAcc) (hps : ∀ p ∈ ps, unusablePart p = true) :
    ps.foldl (processPart sid t1 aok) acc = acc := by
  induction ps generalizing acc with
  | nil => rfl
  | cons p rest ihp =>
    have h1 : processPart sid t1 aok acc p = acc :=
      processPart_skip sid t1 aok acc p (hps p (List.mem_cons_self p rest))
    simp only [List.foldl_cons, h1]
    exact ihp acc (fun q hq => hps q (List.mem_cons_of_mem p hq))

lemma processChunks_skip (sid : String) (t1 : Nat) (aok : Nat → Bool) (acc : GenAcc)
    (chunks : List Chunk) (hu : ∀ c ∈ chunks, ∀ p ∈ c.parts, unusablePart p = true) :
    processChunks sid t1 aok acc chunks = acc := by
  induction chunks generalizing acc with
  | nil => rfl
  | cons c rest ih =>
    have hc : c.parts.foldl (processPart sid t1 aok) acc = acc :=
      foldl_processPart_skip sid t1 aok c.parts acc (hu c (List.mem_cons_self c rest))
    simp only [processChunks, List.foldl_cons] at *
    rw [hc]
    exact ih acc (fun d hd => hu d (List.mem_cons_of_mem c hd))

/-! ## String lemmas for the title derivation -/

lemma collapseAux_noWs (l : List Char) (b : Bool) (h : ∀ c ∈ l, jsIsSpace c = false) :
    collapseAux b l = l := by
  induction l generalizing b with
  | nil => rfl
  | cons c rest ih =>
    have hc : jsIsSpace c = false := h c (List.mem_cons_self c rest)
    simp only [collapseAux, hc, Bool.false_eq_true, if_false]
    rw [ih false (fun d hd => h d (List.mem_cons_of_mem c hd))]

lemma dropWhile_noWs (l : List Char) (h : ∀ c ∈ l, jsIsSpace c = false) :
    l.dropWhile jsIsSpace = l := by
  cases l with
  | nil => rfl
  | cons c rest =>
    have hc : jsIsSpace c = false := h c (List.mem_cons_self c rest)
    simp [List.dropWhile_cons, hc]

lemma jsTrimList_noWs (l : List Char) (h : ∀ c ∈ l, jsIsSpace c = false) :
    jsTrimList l = l := by
  unfold jsTrimList
  rw [dropWhile_noWs l h,
      dropWhile_noWs l.reverse (fun c hc => h c (List.mem_reverse.mp hc)),
      List.reverse_reverse]

lemma jsTrim_noWs (s : String) (h : ∀ c ∈ s.data, jsIsSpace c = false) :
    jsTrim s = s := by
  cases s with
  | mk d =>
    show String.mk (jsTrimList d) = String.mk d
    rw [jsTrimList_noWs d h]

lemma collapseWs_noWs (s : String) (h : ∀ c ∈ s.data, jsIsSpace c = false) :
    collapseWs s = s := by
  cases s with
  | mk d =>
    show String.mk (collapseAux false d) = String.mk d
    rw [collapseAux_noWs d false h]

lemma str_eq_empty_iff (s : String) : s = "" ↔ s.data = [] := by
  cases s with
  | mk d =>
    constructor
    · intro h
      rw [h]
    · intro h
      rw [show d = [] from h]

lemma str_length_pos (s : String) (h : s ≠ "") : 0 < s.length := by
  have hd : s.data ≠ [] := fun e => h ((str_eq_empty_iff s).mpr e)
  show 0 < s.data.length
  exact List.length_pos.mpr hd

/-! ## Lemmas about accepted turns -/

lemma valid_parts_ne (ti : TurnInput) (hv : validTurnInput ti = true) :
    userTextParts (ti.text.map jsTrim) ++ userImageParts ti.files ≠ [] := by
  intro hcontra
  rw [List.append_eq_nil] at hcontra
  obtain ⟨hT, hI⟩ := hcontra
  have hfiles : ti.files = [] := by
    have := hI
    unfold userImageParts at this
    exact List.map_eq_nil_iff.mp this
  unfold validTurnInput at hv
  cases htext : ti.text with
  | none =>
    rw [htext] at hv
    simp [hfiles] at hv
  | some s =>
    rw [htext] at hv
    have hts : jsTrim s = "" := by
      by_contra hne
      have : userTextParts (Option.map jsTrim (some s)) = [Part.text (jsTrim s)] := by
        simp [userTextParts, hne]
      rw [htext] at hT
      rw [this] at hT
      exact absurd hT (by simp)
    simp [hts, hfiles] at hv

lemma runTurn_step (st : ServerState) (id key : String) (ti : TurnInput) (sess : ChatSession)
    (h : st.sessions id = some sess) (hg : sess.generating = false)
    (hv : validTurnInput ti = true) :
    ∃ P Q, (runTurn st id key ti).sessions id =
      some { sess with
               history := sess.history ++ [⟨Role.user, P⟩, ⟨Role.model, Q⟩],
               turn := sess.turn + 1,
               generating := false } := by
  have hp := valid_parts_ne ti hv
  obtain ⟨hresp, hlook⟩ := acceptMessage_accepted st id ti.text ti.files ti.now sess h hg hp
  set st1 := (acceptMessage st id ti.text ti.files ti.now).1 with hst1
  set parts := userTextParts (ti.text.map jsTrim) ++ userImageParts ti.files with hparts
  set sess1 : ChatSession :=
    { sess with history := sess.history ++ [⟨Role.user, parts⟩] } with hsess1
  have hg1 : sess1.generating = false := hg
  have hst := streamTurn_ok st1 id key ti.chunks ti.artifactOk ti.now sess1 hlook hg1
  refine ⟨parts,
    (processChunks id (sess1.turn + 1) ti.artifactOk (initAcc st1.artifacts) ti.chunks).assistantParts,
    ?_⟩
  show (streamTurn st1 id (some key) ti.chunks none ti.artifactOk ti.now).state.sessions id = _
  rw [hst]
  simp only [mapUpdate_self]
  congr 1
  simp [hsess1, List.append_assoc]

lemma runTurns_inv (id key : String) (tis : List TurnInput) :
    ∀ (st : ServerState) (sess : ChatSession),
      st.sessions id = some sess → sess.generating = false →
      (∀ ti ∈ tis, validTurnInput ti = true) →
      ∃ sess', (runTurns st id key tis).sessions id = some sess' ∧
        sess'.generating = false ∧
        sess'.turn = sess.turn + tis.length ∧
        sess'.history.map (fun m => m.role) =
          sess.history.map (fun m => m.role) ++ turnRoles tis.length := by
  induction tis with
  | nil =>
    intro st sess h hg _
    exact ⟨sess, h, hg, by simp [runTurns], by simp [runTurns, turnRoles]⟩
  | cons ti rest ih =>
    intro st sess h hg hv
    obtain ⟨P, Q, hstep⟩ :=
      runTurn_step st id key ti sess h hg (hv ti (List.mem_cons_self ti rest))
    obtain ⟨sess', hlook, hg', hturn, hroles⟩ :=
      ih (runTurn st id key ti) _ hstep (by rfl)
        (fun t ht => hv t (List.mem_cons_of_mem ti ht))
    refine ⟨sess', by simpa [runTurns] using hlook, hg', ?_, ?_⟩
    · simp only [hturn, List.length_cons]
      omega
    · rw [hroles]
      simp [turnRoles, List.append_assoc]

lemma turnRoles_length (n : Nat) : (turnRoles n).length = 2 * n := by
  induction n with
  | zero => rfl
  | succ m ih => simp [turnRoles, ih]; omega

/-! ## deriveTitle branch lemmas -/

lemma deriveTitle_long (s : String) (n : Nat) (now : String)
    (hlen : s.length = 40) (hws : ∀ c ∈ s.data, jsIsSpace c = false) :
    deriveTitle (some s) n now = jsSlice s 30 ++ "…" := by
  have hne : s ≠ "" := by
    intro e
    rw [e] at hlen
    exact absurd hlen (by decide)
  have htrim : jsTrim s = s := jsTrim_noWs s hws
  have hcol : collapseWs s = s := collapseWs_noWs s hws
  simp only [deriveTitle, hcol, htrim]
  rw [if_pos ⟨hne, by rw [hlen]; norm_num⟩, if_pos (by rw [hlen]; norm_num)]

lemma deriveTitle_short (s : String) (n : Nat) (now : String)
    (h1 : jsTrim s ≠ "") (h2 : (jsTrim (collapseWs s)).length ≤ 30) :
    deriveTitle (some s) n now = jsTrim (collapseWs s) := by
  have hne : s ≠ "" := by
    intro e
    apply h1
    rw [e]
    rfl
  have hcond : s ≠ "" ∧ (jsTrim s).length > 0 := ⟨hne, str_length_pos (jsTrim s) h1⟩
  simp only [deriveTitle]
  rw [if_pos hcond, if_neg (by omega)]

/-! ## Claim theorems -/

/-- C1: while a session's `generating` flag is true, a second `streamTurn`
request answers with one terminal error event and leaves the state exactly
as it was (it never enters `Generating`), and `acceptMessage` is rejected
with `Conflict` with the state also untouched; neither rejected call is
queued — both return immediately without mutating history or the turn
counter. -/
theorem C1_single_flight (st : ServerState) (id : String) (sess : ChatSession)
    (apiKey : Option String) (chunks : List Chunk) (err : Option String)
    (aok : Nat → Bool) (now : String) (text : Option String) (files : List InFile)
    (h : st.sessions id = some sess) (hg : sess.generating = true) :
    streamTurn st id apiKey chunks err aok now = ⟨[SseEvent.error "Already generating"], st⟩ ∧
    acceptMessage st id text files now = (st, MsgResponse.conflict) :=
  ⟨streamTurn_conflict st id apiKey chunks err aok now sess h hg,
   acceptMessage_conflict st id text files now sess h hg⟩

/-- Witness for C1 at a concrete busy session. -/
theorem C1_single_flight_witness :
    streamTurn busyState "b1" none [] none (fun _ => false) "T" =
      ⟨[SseEvent.error "Already generating"], busyState⟩ ∧
    acceptMessage busyState "b1" (some "hi") [] "T" = (busyState, MsgResponse.conflict) :=
  C1_single_flight busyState "b1" busySession none [] none (fun _ => false) "T"
    (some "hi") [] (by decide) rfl

/-- C2: if the upstream raises (after yielding any prefix of chunks), the
handler's event stream ends with a terminal `error` event, the live session
keeps its pre-stream history and turn counter with `generating` false, and
the durable store is untouched — no partial assistant message is
committed. -/
theorem C2_error_no_commit (st : ServerState) (id key : String) (sess : ChatSession)
    (chunks : List Chunk) (msg : String) (aok : Nat → Bool) (now : String)
    (h : st.sessions id = some sess) (hg : sess.generating = false) :
    (∃ pre, (streamTurn st id (some key) chunks (some msg) aok now).events =
       pre ++ [SseEvent.error (if msg = "" then "Generation failed" else msg)]) ∧
    (∃ sess', (streamTurn st id (some key) chunks (some msg) aok now).state.sessions id =
         some sess' ∧
       sess'.history = sess.history ∧ sess'.turn = sess.turn ∧ sess'.generating = false) ∧
    (streamTurn st id (some key) chunks (some msg) aok now).state.store = st.store := by
  rw [streamTurn_err st id key chunks msg aok now sess h hg]
  exact ⟨⟨_, rfl⟩,
    ⟨{ sess with generating := false }, mapUpdate_self _ _ _, rfl, rfl, rfl⟩, rfl⟩

/-- Witness for C2: upstream raises "boom" after one text chunk on the
scenario session. -/
theorem C2_error_no_commit_witness :
    (∃ pre, (streamTurn scenarioAfterMessage "s1" (some "k") [⟨[Part.text "Hi"]⟩]
        (some "boom") (fun _ => true) "T2").events =
       pre ++ [SseEvent.error (if "boom" = "" then "Generation failed" else "boom")]) ∧
    (∃ sess', (streamTurn scenarioAfterMessage "s1" (some "k") [⟨[Part.text "Hi"]⟩]
         (some "boom") (fun _ => true) "T2").state.sessions "s1" = some sess' ∧
       sess'.history = scenarioSession.history ∧ sess'.turn = scenarioSession.turn ∧
       sess'.generating = false) ∧
    (streamTurn scenarioAfterMessage "s1" (some "k") [⟨[Part.text "Hi"]⟩]
      (some "boom") (fun _ => true) "T2").state.store = scenarioAfterMessage.store :=
  C2_error_no_commit scenarioAfterMessage "s1" "k" scenarioSession [⟨[Part.text "Hi"]⟩]
    "boom" (fun _ => true) "T2" (by decide) rfl

/-- C3: starting from a session created empty, after any sequence of `n`
valid turns — each an accepted user message followed by a stream whose
upstream completes without raising — the live history has length exactly
`2 * n` and its roles are `turnRoles n`, i.e. strictly alternating
user, model, user, model, … starting with user; the turn counter is `n`
and the lock is free. -/
theorem C3_history_alternates (st : ServerState) (id title now key : String)
    (tis : List TurnInput) (hv : ∀ ti ∈ tis, validTurnInput ti = true) :
    ∃ sess, (runTurns (createSession st id title now) id key tis).sessions id = some sess ∧
      sess.history.length = 2 * tis.length ∧
      sess.history.map (fun m => m.role) = turnRoles tis.length ∧
      sess.turn = tis.length ∧ sess.generating = false := by
  obtain ⟨sess', hlook, hg', hturn, hroles⟩ :=
    runTurns_inv id key tis (createSession st id title now) ⟨id, [], false, 0⟩
      (mapUpdate_self _ _ _) rfl hv
  simp only [List.map_nil, List.nil_append] at hroles
  refine ⟨sess', hlook, ?_, hroles, by simpa using hturn, hg'⟩
  have hlen := congrArg List.length hroles
  simpa [turnRoles_length] using hlen

/-- Witness for C3: one concrete valid turn on a fresh session. -/
theorem C3_history_alternates_witness :
    ∃ sess, (runTurns (createSession emptyState "s3" "t" "T0") "s3" "k"
        [oneTurnInput]).sessions "s3" = some sess ∧
      sess.history.length = 2 * [oneTurnInput].length ∧
      sess.history.map (fun m => m.role) = turnRoles [oneTurnInput].length ∧
      sess.turn = [oneTurnInput].length ∧ sess.generating = false :=
  C3_history_alternates emptyState "s3" "t" "T0" "k" [oneTurnInput]
    (by
      intro ti hti
      rw [List.mem_singleton.mp hti]
      decide)

/-- C4 counterexample: in the scenario (fresh session, text "draw a cat",
upstream yields text "Here's a cat" then a png image) with the best-effort
artifact save succeeding — the normal case — the relay does NOT emit exactly
status, text, image, done: an additional status event ("Saved generated
image: …", server.ts:223) follows the image event. -/
theorem C4_counterexample :
    (streamTurn scenarioAfterMessage "s1" (some "k") scenarioChunks none
      (fun _ => true) "T2").events.map eventKind ≠
      [EvKind.status, EvKind.text, EvKind.image, EvKind.done] := by
  decide

/-- C4 amended: in the scenario the relay emits status, text("Here's a
cat"), image(png, …), done in that order, with one additional status event
reporting the saved artifact between `image` and `done` exactly when the
best-effort artifact save succeeds (it is absent when the save fails);
afterwards the history is [user:[text], model:[text, image]] and the turn
counter is 1. -/
theorem C4_scenario_amended :
    (streamTurn scenarioAfterMessage "s1" (some "k") scenarioChunks none
      (fun _ => true) "T2").events =
      [SseEvent.status "Generating...", SseEvent.text "Here's a cat",
       SseEvent.image "image/png" "IMG",
       SseEvent.status "Saved generated image: session-s1-assistant-1-0.png",
       SseEvent.done] ∧
    (streamTurn scenarioAfterMessage "s1" (some "k") scenarioChunks none
      (fun _ => false) "T2").events =
      [SseEvent.status "Generating...", SseEvent.text "Here's a cat",
       SseEvent.image "image/png" "IMG", SseEvent.done] ∧
    (streamTurn scenarioAfterMessage "s1" (some "k") scenarioChunks none
      (fun _ => true) "T2").state.sessions "s1" =
      some ⟨"s1",
        [⟨Role.user, [Part.text "draw a cat"]⟩,
         ⟨Role.model, [Part.text "Here's a cat", Part.inlineData ⟨"image/png", "IMG"⟩]⟩],
        false, 1⟩ ∧
    (streamTurn scenarioAfterMessage "s1" (some "k") scenarioChunks none
      (fun _ => false) "T2").state.sessions "s1" =
      some ⟨"s1",
        [⟨Role.user, [Part.text "draw a cat"]⟩,
         ⟨Role.model, [Part.text "Here's a cat", Part.inlineData ⟨"image/png", "IMG"⟩]⟩],
        false, 1⟩ :=
  ⟨by decide, by decide, by decide, by decide⟩

/-- C5 (code behaviour at the claim's failing input): the stream handler of
server.ts:170-254 registers no listener for the client connection closing;
its embedded behaviour is a total function of the session state and the
upstream output alone, with no disconnect input.  Evaluated on a turn during
which the claim posits a disconnect, the handler still relays every event,
commits the accumulated assistant message to history, increments the turn
counter, persists the document, and only then clears the flag — nothing is
discarded and the keep-alive timer runs until this normal end. -/
theorem C5_no_disconnect_handling :
    (streamTurn scenarioAfterMessage "s1" (some "k") oneTextUpstream none
      (fun _ => true) "T2").events =
      [SseEvent.status "Generating...", SseEvent.text "partial answer", SseEvent.done] ∧
    (streamTurn scenarioAfterMessage "s1" (some "k") oneTextUpstream none
      (fun _ => true) "T2").state.sessions "s1" =
      some ⟨"s1",
        [⟨Role.user, [Part.text "draw a cat"]⟩,
         ⟨Role.model, [Part.text "partial answer"]⟩],
        false, 1⟩ ∧
    (streamTurn scenarioAfterMessage "s1" (some "k") oneTextUpstream none
      (fun _ => true) "T2").state.store "s1" =
      some ⟨"s1", "draw a cat", "T0", "T2",
        [⟨Role.user, [Part.text "draw a cat"]⟩,
         ⟨Role.model, [Part.text "partial answer"]⟩]⟩ :=
  ⟨by decide, by decide, by decide⟩

/-- C6 counterexample: with a durable document for `s6` but no registry
entry, `acceptMessage` answers `Invalid sessionId` and mutates nothing — it
does not lazily load the session from the repository. -/
theorem C6_counterexample :
    c6State.store "s6" = some c6Doc ∧
    c6State.sessions "s6" = none ∧
    acceptMessage c6State "s6" (some "hi") [] "T1" = (c6State, MsgResponse.invalidSession) :=
  ⟨by decide, rfl, rfl⟩

/-- C6 amended: `acceptMessage` accepts only sessions present in the
in-memory registry — a sessionId with merely a durable document is rejected
with `Invalid sessionId` and no state mutation; sessions become live (and
thus acceptable) through the load-session operation, which warms the
registry from the durable document. -/
theorem C6_registry_only_amended :
    (∀ (st : ServerState) (id : String) (text : Option String) (files : List InFile)
       (now : String), st.sessions id = none →
       acceptMessage st id text files now = (st, MsgResponse.invalidSession)) ∧
    (∀ (st : ServerState) (id : String) (doc : SessionDoc), st.store id = some doc →
       (loadSession st id).2 = some doc ∧
       (loadSession st id).1.sessions id =
         some ⟨doc.id, doc.history, false, countModel doc.history⟩) := by
  refine ⟨fun st id text files now h => acceptMessage_notFound st id text files now h,
          fun st id doc h => ⟨?_, ?_⟩⟩
  · simp [loadSession, h]
  · simp [loadSession, h, mapUpdate_self]

/-- Witness for C6 amended: the rejection at a concrete registry miss and
the warming of the registry by a concrete load. -/
theorem C6_registry_only_amended_witness :
    acceptMessage emptyState "x" (some "hi") [] "T" = (emptyState, MsgResponse.invalidSession) ∧
    ((loadSession c6State "s6").2 = some c6Doc ∧
     (loadSession c6State "s6").1.sessions "s6" =
       some ⟨c6Doc.id, c6Doc.history, false, countModel c6Doc.history⟩) :=
  ⟨C6_registry_only_amended.1 emptyState "x" (some "hi") [] "T" rfl,
   C6_registry_only_amended.2 c6State "s6" c6Doc (by decide)⟩

/-- C7: a message whose text is absent or blank after trimming and which
carries zero images is rejected with the empty-message error before any
state mutation: the returned state is exactly the input state (history,
artifacts and store untouched) and no turn number is produced. -/
theorem C7_blank_rejected (st : ServerState) (id : String) (sess : ChatSession)
    (text : Option String) (now : String)
    (h : st.sessions id = some sess) (hg : sess.generating = false)
    (ht : text = none ∨ ∃ s, text = some s ∧ jsTrim s = "") :
    acceptMessage st id text [] now = (st, MsgResponse.emptyMessage) := by
  apply acceptMessage_empty st id text [] now sess h hg
  rcases ht with h0 | ⟨s, hs, hts⟩
  · rw [h0]
    rfl
  · rw [hs]
    simp [userTextParts, userImageParts, hts]

/-- Witness for C7: whitespace-only text and zero images on a fresh
session. -/
theorem C7_blank_rejected_witness :
    acceptMessage (createSession emptyState "s7" "t" "T0") "s7" (some "   ") [] "T1" =
      (createSession emptyState "s7" "t" "T0", MsgResponse.emptyMessage) :=
  C7_blank_rejected (createSession emptyState "s7" "t" "T0") "s7" ⟨"s7", [], false, 0⟩
    (some "   ") "T1" (by decide) rfl (Or.inr ⟨"   ", rfl, by decide⟩)

/-- C8 counterexample: the claim's general clause fails for whitespace-only
text: its whitespace-collapsed trimmed form is "" (length ≤ 30), yet
`deriveTitle " "` is not "" — the guard `text.trim().length > 0`
(server.ts:35) sends blank text to the fallback label instead. -/
theorem C8_counterexample :
    (jsTrim (collapseWs " ")).length ≤ 30 ∧
    deriveTitle (some " ") 0 "T" ≠ jsTrim (collapseWs " ") := by
  decide

/-- C8 amended: the four specified cases hold — "  Hello   world  " with no
images gives "Hello world"; any 40-character whitespace-free text gives its
first 30 characters plus the ellipsis mark; no text with 3 images gives the
"3 images" template; neither gives the timestamp label — and for every text
that is non-blank after trimming whose whitespace-collapsed trimmed form has
at most 30 characters, the title is that form unchanged (blank text instead
falls through to the image/timestamp fallbacks). -/
theorem C8_deriveTitle_amended :
    (∀ now, deriveTitle (some "  Hello   world  ") 0 now = "Hello world") ∧
    (∀ (s : String) (n : Nat) (now : String), s.length = 40 →
       (∀ c ∈ s.data, jsIsSpace c = false) →
       deriveTitle (some s) n now = jsSlice s 30 ++ "…") ∧
    (∀ now, deriveTitle none 3 now = "图片对话（3张）") ∧
    (∀ now, deriveTitle none 0 now = "会话 " ++ now) ∧
    (∀ (s : String) (n : Nat) (now : String), jsTrim s ≠ "" →
       (jsTrim (collapseWs s)).length ≤ 30 →
       deriveTitle (some s) n now = jsTrim (collapseWs s)) :=
  ⟨fun _ => rfl, deriveTitle_long, fun _ => rfl, fun _ => rfl, deriveTitle_short⟩

/-- Witness for C8 amended: the truncation case at a concrete 40-character
text and the unchanged case at a concrete short text. -/
theorem C8_deriveTitle_amended_witness :
    deriveTitle (some "aaaaaaaaaaaaaaaaaaaaaaaaaaaaaaaaaaaaaaaa") 0 "T" =
      jsSlice "aaaaaaaaaaaaaaaaaaaaaaaaaaaaaaaaaaaaaaaa" 30 ++ "…" ∧
    deriveTitle (some " hi ") 2 "T" = jsTrim (collapseWs " hi ") :=
  ⟨C8_deriveTitle_amended.2.1 "aaaaaaaaaaaaaaaaaaaaaaaaaaaaaaaaaaaaaaaa" 0 "T"
     (by decide) (by decide),
   C8_deriveTitle_amended.2.2.2.2 " hi " 2 "T" (by decide) (by decide)⟩

/-- C9: deleting a session always succeeds (`{ok: true}`), removes the
durable document and the registry entry, and calling it again on the result
— or on any state where the id is absent — changes nothing and still
succeeds: `unlink` errors are swallowed (sessionStore.ts:47) and
`Map.delete` of a missing key is a no-op. -/
theorem C9_delete_idempotent (st : ServerState) (id : String) :
    (deleteSession st id).2 = true ∧
    (deleteSession st id).1.store id = none ∧
    (deleteSession st id).1.sessions id = none ∧
    deleteSession (deleteSession st id).1 id = ((deleteSession st id).1, true) := by
  refine ⟨rfl, mapErase_self _ _, mapErase_self _ _, ?_⟩
  simp [deleteSession, mapErase_idem]

/-- C10: an upstream that completes without error but yields no usable part
(every part is empty text or an image with empty payload) still completes
the turn: an assistant message with an empty parts list is appended, the
turn counter is incremented, the document is persisted with the new
history, and the events are exactly status then done. -/
theorem C10_empty_completion (st : ServerState) (id key : String) (sess : ChatSession)
    (chunks : List Chunk) (aok : Nat → Bool) (now : String)
    (h : st.sessions id = some sess) (hg : sess.generating = false)
    (hu : ∀ c ∈ chunks, ∀ p ∈ c.parts, unusablePart p = true) :
    (streamTurn st id (some key) chunks none aok now).events =
      [SseEvent.status "Generating...", SseEvent.done] ∧
    (streamTurn st id (some key) chunks none aok now).state.sessions id =
      some { sess with
               history := sess.history ++ [⟨Role.model, []⟩],
               turn := sess.turn + 1,
               generating := false } ∧
    (streamTurn st id (some key) chunks none aok now).state.store id =
      some ⟨id, commitTitle (st.store id) now, commitCreatedAt (st.store id) now, now,
            sess.history ++ [⟨Role.model, []⟩]⟩ := by
  have hpc : processChunks id (sess.turn + 1) aok (initAcc st.artifacts) chunks =
      initAcc st.artifacts :=
    processChunks_skip id (sess.turn + 1) aok (initAcc st.artifacts) chunks hu
  rw [streamTurn_ok st id key chunks aok now sess h hg]
  rw [hpc]
  exact ⟨rfl, mapUpdate_self _ _ _, mapUpdate_self _ _ _⟩

/-- Witness for C10: a completed upstream whose only part is empty text, on
a fresh session. -/
theorem C10_empty_completion_witness :
    (streamTurn (createSession emptyState "s0" "t" "T0") "s0" (some "k")
      [⟨[Part.text ""]⟩] none (fun _ => false) "T1").events =
      [SseEvent.status "Generating...", SseEvent.done] ∧
    (streamTurn (createSession emptyState "s0" "t" "T0") "s0" (some "k")
      [⟨[Part.text ""]⟩] none (fun _ => false) "T1").state.sessions "s0" =
      some { (⟨"s0", [], false, 0⟩ : ChatSession) with
               history := ([] : List ChatMessage) ++ [⟨Role.model, []⟩],
               turn := 0 + 1,
               generating := false } ∧
    (streamTurn (createSession emptyState "s0" "t" "T0") "s0" (some "k")
      [⟨[Part.text ""]⟩] none (fun _ => false) "T1").state.store "s0" =
      some ⟨"s0", commitTitle ((createSession emptyState "s0" "t" "T0").store "s0") "T1",
            commitCreatedAt ((createSession emptyState "s0" "t" "T0").store "s0") "T1", "T1",
            ([] : List ChatMessage) ++ [⟨Role.model, []⟩]⟩ :=
  C10_empty_completion (createSession emptyState "s0" "t" "T0") "s0" "k"
    ⟨"s0", [], false, 0⟩ [⟨[Part.text ""]⟩] (fun _ => false) "T1"
    (by decide) rfl (by decide)

end NanoBanana
